import Mathlib

/-!
Verification of the Docker image task wrappers
(`src/prefect/tasks/docker/images.py`).

The five task classes (`ListImages`, `PullImage`, `PushImage`, `RemoveImage`,
`TagImage`) are shallowly embedded as Lean structures holding the
constructor-set attributes, together with `run` functions that translate the
Python `run` methods statement by statement.  Python optional strings become
`Option String` (with `none` playing the role of Python `None`); Python
truthiness of such a value is `pyTruthyStr`.  The docker client is an opaque
collaborator: a record of functions, each returning `Except String _` so that
collaborator failures can be observed.  Every `run` returns, besides the
translated result or error, a `Trace` recording which client handles were
constructed (by base url) and which delegated calls were issued, and the task
value itself (the post-state of `self`), so that frame and at-most-once
properties are expressible.
-/

namespace DockerTasks

/-- Python truthiness of an optional string: `None` and `""` are falsy,
every other string is truthy. -/
def pyTruthyStr : Option String → Bool
  | none => false
  | some s => !s.isEmpty

/-- Modelled from the spec: the `defaults_from_attrs` decorator
(`prefect.utilities.tasks`) is not under `src/`; spec section 4.1 gives its
contract: if the call-time value is the field's unset sentinel (`None`), use
the constructor-time default; otherwise use the call-time value, applied
independently per field, with no side effects.  This is the resolution for a
field whose constructor-time attribute is itself an optional value. -/
def resolveField {α : Type} (callArg : Option α) (ctorVal : Option α) : Option α :=
  match callArg with
  | none => ctorVal
  | some v => some v

/-- Modelled from the spec: same resolution rule as `resolveField`, for a
field whose constructor-time attribute is a plain (non-optional) value. -/
def resolveFieldD {α : Type} (callArg : Option α) (ctorVal : α) : α :=
  match callArg with
  | none => ctorVal
  | some v => v

/-- The docker daemon url used when none is supplied, from the constructor
defaults in the source. -/
def defaultServerURL : String := "unix:///var/run/docker.sock"

/-- A delegated call issued to the docker client, with the argument values
passed to it (`client.images`, `client.pull`, `client.push`, `client.remove`,
`client.tag` in the source). -/
inductive ClientCall where
  | images (name : Option String) (all : Bool)
  | pull (repository : Option String) (tag : Option String)
  | push (repository : Option String) (tag : Option String)
  | remove (image : Option String) (force : Bool)
  | tag (image : Option String) (repository : Option String)
      (tag : Option String) (force : Bool)
deriving DecidableEq, Repr

/-- Observable record of one invocation: the base urls for which a client
handle was constructed (`docker.APIClient(base_url=...)`) and the delegated
calls issued, in order. -/
structure Trace where
  clients : List String
  calls : List ClientCall
deriving DecidableEq, Repr

/-- The empty trace: nothing constructed, nothing called. -/
def Trace.empty : Trace := ⟨[], []⟩

/-- An error escaping a `run` method: either the locally raised
`ValueError` with its message, or an error of the collaborator propagated
to the caller with its payload intact. -/
inductive PyErr where
  | valueError (msg : String)
  | collabError (e : String)
deriving DecidableEq, Repr

/-- The opaque docker collaborator: handle construction plus the five client
operations the source delegates to.  `ι` is the collaborator-defined type of
image records returned by `images`; `ρ` is whatever `remove` returns (the
source discards it).  Each operation may fail with an opaque error. -/
structure DockerCollab (ι ρ : Type) where
  apiClient : String → Except String Unit
  images : Option String → Bool → Except String (List ι)
  pull : Option String → Option String → Except String String
  push : Option String → Option String → Except String String
  remove : Option String → Bool → Except String ρ
  tag : Option String → Option String → Option String → Bool → Except String Bool

/-- Constructor-set attributes of `ListImages` (`__init__`, lines 23-34). -/
structure ListImages where
  repository_name : Option String
  all_layers : Bool
  docker_server_url : String
deriving DecidableEq, Repr

/-- `ListImages.__init__` with its Python defaults; a `none` argument means
the keyword was not supplied. -/
def ListImages.init (repository_name : Option String) (all_layers : Option Bool)
    (docker_server_url : Option String) : ListImages :=
  { repository_name := repository_name
    all_layers := resolveFieldD all_layers false
    docker_server_url := resolveFieldD docker_server_url defaultServerURL }

/-- `ListImages.run` (lines 36-59): resolve the three fields, construct a
client against the resolved url, delegate to `client.images(name, all)` and
return its result.  No validation. -/
def ListImages.run {ι ρ : Type} (client : DockerCollab ι ρ) (t : ListImages)
    (repository_name : Option String) (all_layers : Option Bool)
    (docker_server_url : Option String) :
    (Except PyErr (List ι) × Trace) × ListImages :=
  let rn := resolveField repository_name t.repository_name
  let al := resolveFieldD all_layers t.all_layers
  let url := resolveFieldD docker_server_url t.docker_server_url
  match client.apiClient url with
  | Except.error e => ((Except.error (PyErr.collabError e), ⟨[url], []⟩), t)
  | Except.ok _ =>
    match client.images rn al with
    | Except.error e =>
        ((Except.error (PyErr.collabError e), ⟨[url], [ClientCall.images rn al]⟩), t)
    | Except.ok xs =>
        ((Except.ok xs, ⟨[url], [ClientCall.images rn al]⟩), t)

/-- Constructor-set attributes of `PullImage` (`__init__`, lines 76-87). -/
structure PullImage where
  repository : Option String
  tag : Option String
  docker_server_url : String
deriving DecidableEq, Repr

/-- `PullImage.__init__` with its Python defaults. -/
def PullImage.init (repository : Option String) (tag : Option String)
    (docker_server_url : Option String) : PullImage :=
  { repository := repository
    tag := tag
    docker_server_url := resolveFieldD docker_server_url defaultServerURL }

/-- `PullImage.run` (lines 89-118): resolve the fields, raise `ValueError`
when the resolved repository is falsy, otherwise construct a client and
delegate to `client.pull(repository, tag)`. -/
def PullImage.run {ι ρ : Type} (client : DockerCollab ι ρ) (t : PullImage)
    (repository : Option String) (tag : Option String)
    (docker_server_url : Option String) :
    (Except PyErr String × Trace) × PullImage :=
  let rep := resolveField repository t.repository
  let tg := resolveField tag t.tag
  let url := resolveFieldD docker_server_url t.docker_server_url
  if !pyTruthyStr rep then
    ((Except.error
        (PyErr.valueError "A repository to pull the image from must be specified."),
      Trace.empty), t)
  else
    match client.apiClient url with
    | Except.error e => ((Except.error (PyErr.collabError e), ⟨[url], []⟩), t)
    | Except.ok _ =>
      match client.pull rep tg with
      | Except.error e =>
          ((Except.error (PyErr.collabError e), ⟨[url], [ClientCall.pull rep tg]⟩), t)
      | Except.ok s =>
          ((Except.ok s, ⟨[url], [ClientCall.pull rep tg]⟩), t)

/-- Constructor-set attributes of `PushImage` (`__init__`, lines 135-146). -/
structure PushImage where
  repository : Option String
  tag : Option String
  docker_server_url : String
deriving DecidableEq, Repr

/-- `PushImage.__init__` with its Python defaults. -/
def PushImage.init (repository : Option String) (tag : Option String)
    (docker_server_url : Option String) : PushImage :=
  { repository := repository
    tag := tag
    docker_server_url := resolveFieldD docker_server_url defaultServerURL }

/-- `PushImage.run` (lines 148-177): like `PullImage.run` with its own
message, delegating to `client.push(repository, tag)`. -/
def PushImage.run {ι ρ : Type} (client : DockerCollab ι ρ) (t : PushImage)
    (repository : Option String) (tag : Option String)
    (docker_server_url : Option String) :
    (Except PyErr String × Trace) × PushImage :=
  let rep := resolveField repository t.repository
  let tg := resolveField tag t.tag
  let url := resolveFieldD docker_server_url t.docker_server_url
  if !pyTruthyStr rep then
    ((Except.error
        (PyErr.valueError "A repository to push the image to must be specified."),
      Trace.empty), t)
  else
    match client.apiClient url with
    | Except.error e => ((Except.error (PyErr.collabError e), ⟨[url], []⟩), t)
    | Except.ok _ =>
      match client.push rep tg with
      | Except.error e =>
          ((Except.error (PyErr.collabError e), ⟨[url], [ClientCall.push rep tg]⟩), t)
      | Except.ok s =>
          ((Except.ok s, ⟨[url], [ClientCall.push rep tg]⟩), t)

/-- Constructor-set attributes of `RemoveImage` (`__init__`, lines 193-204). -/
structure RemoveImage where
  image : Option String
  force : Bool
  docker_server_url : String
deriving DecidableEq, Repr

/-- `RemoveImage.__init__` with its Python defaults. -/
def RemoveImage.init (image : Option String) (force : Option Bool)
    (docker_server_url : Option String) : RemoveImage :=
  { image := image
    force := resolveFieldD force false
    docker_server_url := resolveFieldD docker_server_url defaultServerURL }

/-- `RemoveImage.run` (lines 206-231): resolve the fields, raise `ValueError`
when the resolved image is falsy, otherwise construct a client, delegate to
`client.remove(image, force)` discarding its result, and return `None`
(embedded as `Unit`). -/
def RemoveImage.run {ι ρ : Type} (client : DockerCollab ι ρ) (t : RemoveImage)
    (image : Option String) (force : Option Bool)
    (docker_server_url : Option String) :
    (Except PyErr Unit × Trace) × RemoveImage :=
  let im := resolveField image t.image
  let f := resolveFieldD force t.force
  let url := resolveFieldD docker_server_url t.docker_server_url
  if !pyTruthyStr im then
    ((Except.error
        (PyErr.valueError "The name of an image to remove must be provided."),
      Trace.empty), t)
  else
    match client.apiClient url with
    | Except.error e => ((Except.error (PyErr.collabError e), ⟨[url], []⟩), t)
    | Except.ok _ =>
      match client.remove im f with
      | Except.error e =>
          ((Except.error (PyErr.collabError e), ⟨[url], [ClientCall.remove im f]⟩), t)
      | Except.ok _ =>
          ((Except.ok (), ⟨[url], [ClientCall.remove im f]⟩), t)

/-- Constructor-set attributes of `TagImage` (`__init__`, lines 249-264). -/
structure TagImage where
  image : Option String
  repository : Option String
  tag : Option String
  force : Bool
  docker_server_url : String
deriving DecidableEq, Repr

/-- `TagImage.__init__` with its Python defaults. -/
def TagImage.init (image : Option String) (repository : Option String)
    (tag : Option String) (force : Option Bool)
    (docker_server_url : Option String) : TagImage :=
  { image := image
    repository := repository
    tag := tag
    force := resolveFieldD force false
    docker_server_url := resolveFieldD docker_server_url defaultServerURL }

/-- `TagImage.run` (lines 266-298): resolve the fields, raise `ValueError`
when the resolved image or the resolved repository is falsy, otherwise
construct a client and return the result of
`client.tag(image, repository, tag, force)`. -/
def TagImage.run {ι ρ : Type} (client : DockerCollab ι ρ) (t : TagImage)
    (image : Option String) (repository : Option String) (tag : Option String)
    (force : Option Bool) (docker_server_url : Option String) :
    (Except PyErr Bool × Trace) × TagImage :=
  let im := resolveField image t.image
  let rep := resolveField repository t.repository
  let tg := resolveField tag t.tag
  let f := resolveFieldD force t.force
  let url := resolveFieldD docker_server_url t.docker_server_url
  if !pyTruthyStr im || !pyTruthyStr rep then
    ((Except.error (PyErr.valueError "Both image and repository must be provided."),
      Trace.empty), t)
  else
    match client.apiClient url with
    | Except.error e => ((Except.error (PyErr.collabError e), ⟨[url], []⟩), t)
    | Except.ok _ =>
      match client.tag im rep tg f with
      | Except.error e =>
          ((Except.error (PyErr.collabError e),
            ⟨[url], [ClientCall.tag im rep tg f]⟩), t)
      | Except.ok b =>
          ((Except.ok b, ⟨[url], [ClientCall.tag im rep tg f]⟩), t)

/-- A collaborator on which every operation succeeds, used to evaluate the
theorems at concrete inputs. -/
def collabOK : DockerCollab Nat Nat :=
  { apiClient := fun _ => Except.ok ()
    images := fun _ _ => Except.ok [1, 2]
    pull := fun _ _ => Except.ok "pulled"
    push := fun _ _ => Except.ok "pushed"
    remove := fun _ _ => Except.ok 7
    tag := fun _ _ _ _ => Except.ok true }

/-- A collaborator whose handle construction fails. -/
def collabCtorFail : DockerCollab Nat Nat :=
  { apiClient := fun _ => Except.error "daemon unreachable"
    images := fun _ _ => Except.ok []
    pull := fun _ _ => Except.ok ""
    push := fun _ _ => Except.ok ""
    remove := fun _ _ => Except.ok 0
    tag := fun _ _ _ _ => Except.ok true }

/-- A collaborator whose handle construction succeeds but every delegated
operation fails. -/
def collabOpFail : DockerCollab Nat Nat :=
  { apiClient := fun _ => Except.ok ()
    images := fun _ _ => Except.error "daemon error"
    pull := fun _ _ => Except.error "not found"
    push := fun _ _ => Except.error "permission denied"
    remove := fun _ _ => Except.error "conflict"
    tag := fun _ _ _ _ => Except.error "tag conflict" }

/-- C9: for all five operations, `run` never writes the task's
constructor-set attributes: the task state after any invocation — successful
or failing, with any collaborator and any call-time arguments — equals the
state before it, so consecutive invocations of the same task each resolve
against the original constructor values. -/
theorem claim9_no_attribute_writes :
    (∀ (ι ρ : Type) (c : DockerCollab ι ρ) (t : ListImages)
       (rn : Option String) (al : Option Bool) (url : Option String),
       (ListImages.run c t rn al url).2 = t)
  ∧ (∀ (ι ρ : Type) (c : DockerCollab ι ρ) (t : PullImage)
       (r tg url : Option String),
       (PullImage.run c t r tg url).2 = t)
  ∧ (∀ (ι ρ : Type) (c : DockerCollab ι ρ) (t : PushImage)
       (r tg url : Option String),
       (PushImage.run c t r tg url).2 = t)
  ∧ (∀ (ι ρ : Type) (c : DockerCollab ι ρ) (t : RemoveImage)
       (im : Option String) (f : Option Bool) (url : Option String),
       (RemoveImage.run c t im f url).2 = t)
  ∧ (∀ (ι ρ : Type) (c : DockerCollab ι ρ) (t : TagImage)
       (im rep tg : Option String) (f : Option Bool) (url : Option String),
       (TagImage.run c t im rep tg f url).2 = t) := by
  refine ⟨?_, ?_, ?_, ?_, ?_⟩ <;> intros <;>
    simp only [ListImages.run, PullImage.run, PushImage.run, RemoveImage.run,
      TagImage.run] <;>
    (repeat' split) <;> rfl

/-- C2: for `PullImage` and `PushImage`, invoking `run` with `repository`
unset (`None`) at both construction and call time, and for `RemoveImage`
with `image` unset at both times, raises the `ValueError` of the source and
produces the empty trace: no client handle is constructed and no delegated
call is performed. -/
theorem claim2_missing_required_raises :
    (∀ (ι ρ : Type) (c : DockerCollab ι ρ) (t : PullImage),
       t.repository = none → ∀ (tg url : Option String),
       PullImage.run c t none tg url =
         ((Except.error (PyErr.valueError
            "A repository to pull the image from must be specified."),
           Trace.empty), t))
  ∧ (∀ (ι ρ : Type) (c : DockerCollab ι ρ) (t : PushImage),
       t.repository = none → ∀ (tg url : Option String),
       PushImage.run c t none tg url =
         ((Except.error (PyErr.valueError
            "A repository to push the image to must be specified."),
           Trace.empty), t))
  ∧ (∀ (ι ρ : Type) (c : DockerCollab ι ρ) (t : RemoveImage),
       t.image = none → ∀ (f : Option Bool) (url : Option String),
       RemoveImage.run c t none f url =
         ((Except.error (PyErr.valueError
            "The name of an image to remove must be provided."),
           Trace.empty), t)) := by
  refine ⟨?_, ?_, ?_⟩ <;> intro ι ρ c t h _ _ <;>
    simp [PullImage.run, PushImage.run, RemoveImage.run, resolveField,
      pyTruthyStr, h]

/-- C2 witness: concrete instances of each conjunct. -/
theorem claim2_missing_required_raises_witness :
    PullImage.run collabOK (PullImage.init none none none) none none none =
      ((Except.error (PyErr.valueError
         "A repository to pull the image from must be specified."),
        Trace.empty), PullImage.init none none none)
  ∧ PushImage.run collabOK (PushImage.init none none none) none none none =
      ((Except.error (PyErr.valueError
         "A repository to push the image to must be specified."),
        Trace.empty), PushImage.init none none none)
  ∧ RemoveImage.run collabOK (RemoveImage.init none none none) none none none =
      ((Except.error (PyErr.valueError
         "The name of an image to remove must be provided."),
        Trace.empty), RemoveImage.init none none none) :=
  ⟨claim2_missing_required_raises.1 Nat Nat collabOK
     (PullImage.init none none none) rfl none none,
   claim2_missing_required_raises.2.1 Nat Nat collabOK
     (PushImage.init none none none) rfl none none,
   claim2_missing_required_raises.2.2 Nat Nat collabOK
     (RemoveImage.init none none none) rfl none none⟩

/-- C3: for `TagImage`, when after per-field resolution the image is set
(truthy) but the repository is unset, or the repository is set but the image
is unset, `run` raises the `ValueError` of the source with the empty trace:
no client handle is constructed and no delegated call is performed. -/
theorem claim3_tag_requires_both :
    (∀ (ι ρ : Type) (c : DockerCollab ι ρ) (t : TagImage)
       (im rep tg : Option String) (f : Option Bool) (url : Option String),
       pyTruthyStr (resolveField im t.image) = true →
       resolveField rep t.repository = none →
       TagImage.run c t im rep tg f url =
         ((Except.error (PyErr.valueError
            "Both image and repository must be provided."), Trace.empty), t))
  ∧ (∀ (ι ρ : Type) (c : DockerCollab ι ρ) (t : TagImage)
       (im rep tg : Option String) (f : Option Bool) (url : Option String),
       resolveField im t.image = none →
       pyTruthyStr (resolveField rep t.repository) = true →
       TagImage.run c t im rep tg f url =
         ((Except.error (PyErr.valueError
            "Both image and repository must be provided."), Trace.empty), t)) := by
  constructor <;> intro ι ρ c t im rep tg f url h1 h2 <;>
    simp [TagImage.run, h1, h2, pyTruthyStr]

/-- C3 witness: concrete instances of both conjuncts. -/
theorem claim3_tag_requires_both_witness :
    TagImage.run collabOK (TagImage.init (some "img") none none none none)
        none none none none none =
      ((Except.error (PyErr.valueError
         "Both image and repository must be provided."), Trace.empty),
       TagImage.init (some "img") none none none none)
  ∧ TagImage.run collabOK (TagImage.init none (some "repo") none none none)
        none none none none none =
      ((Except.error (PyErr.valueError
         "Both image and repository must be provided."), Trace.empty),
       TagImage.init none (some "repo") none none none) :=
  ⟨claim3_tag_requires_both.1 Nat Nat collabOK
     (TagImage.init (some "img") none none none none)
     none none none none none rfl rfl,
   claim3_tag_requires_both.2 Nat Nat collabOK
     (TagImage.init none (some "repo") none none none)
     none none none none none rfl rfl⟩

/-- C10: because validation rejects every falsy value while the resolution
sentinel is only `None`, an explicit empty string at call time for a required
field overrides a valid non-empty constructor value and then fails
validation, raising the `ValueError` with the empty trace, for all four
operations that validate. -/
theorem claim10_empty_string_rejected :
    (∀ (ι ρ : Type) (c : DockerCollab ι ρ) (t : PullImage),
       pyTruthyStr t.repository = true → ∀ (tg url : Option String),
       PullImage.run c t (some "") tg url =
         ((Except.error (PyErr.valueError
            "A repository to pull the image from must be specified."),
           Trace.empty), t))
  ∧ (∀ (ι ρ : Type) (c : DockerCollab ι ρ) (t : PushImage),
       pyTruthyStr t.repository = true → ∀ (tg url : Option String),
       PushImage.run c t (some "") tg url =
         ((Except.error (PyErr.valueError
            "A repository to push the image to must be specified."),
           Trace.empty), t))
  ∧ (∀ (ι ρ : Type) (c : DockerCollab ι ρ) (t : RemoveImage),
       pyTruthyStr t.image = true → ∀ (f : Option Bool) (url : Option String),
       RemoveImage.run c t (some "") f url =
         ((Except.error (PyErr.valueError
            "The name of an image to remove must be provided."),
           Trace.empty), t))
  ∧ (∀ (ι ρ : Type) (c : DockerCollab ι ρ) (t : TagImage),
       pyTruthyStr t.image = true →
       ∀ (rep tg : Option String) (f : Option Bool) (url : Option String),
       TagImage.run c t (some "") rep tg f url =
         ((Except.error (PyErr.valueError
            "Both image and repository must be provided."), Trace.empty), t))
  ∧ (∀ (ι ρ : Type) (c : DockerCollab ι ρ) (t : TagImage),
       pyTruthyStr t.repository = true →
       ∀ (im tg : Option String) (f : Option Bool) (url : Option String),
       TagImage.run c t im (some "") tg f url =
         ((Except.error (PyErr.valueError
            "Both image and repository must be provided."), Trace.empty), t)) := by
  refine ⟨?_, ?_, ?_, ?_, ?_⟩ <;> intro ι ρ c t _h <;> intros <;>
    simp +decide [PullImage.run, PushImage.run, RemoveImage.run, TagImage.run,
      resolveField, pyTruthyStr]

/-- C10 witness: concrete instances of each conjunct, with valid non-empty
constructor values overridden by an empty-string call argument. -/
theorem claim10_empty_string_rejected_witness :
    PullImage.run collabOK (PullImage.init (some "r") none none)
        (some "") none none =
      ((Except.error (PyErr.valueError
         "A repository to pull the image from must be specified."),
        Trace.empty), PullImage.init (some "r") none none)
  ∧ PushImage.run collabOK (PushImage.init (some "r") none none)
        (some "") none none =
      ((Except.error (PyErr.valueError
         "A repository to push the image to must be specified."),
        Trace.empty), PushImage.init (some "r") none none)
  ∧ RemoveImage.run collabOK (RemoveImage.init (some "i") none none)
        (some "") none none =
      ((Except.error (PyErr.valueError
         "The name of an image to remove must be provided."),
        Trace.empty), RemoveImage.init (some "i") none none)
  ∧ TagImage.run collabOK (TagImage.init (some "i") (some "r") none none none)
        (some "") none none none none =
      ((Except.error (PyErr.valueError
         "Both image and repository must be provided."), Trace.empty),
       TagImage.init (some "i") (some "r") none none none)
  ∧ TagImage.run collabOK (TagImage.init (some "i") (some "r") none none none)
        (some "i2") (some "") none none none =
      ((Except.error (PyErr.valueError
         "Both image and repository must be provided."), Trace.empty),
       TagImage.init (some "i") (some "r") none none none) :=
  ⟨claim10_empty_string_rejected.1 Nat Nat collabOK
     (PullImage.init (some "r") none none) rfl none none,
   claim10_empty_string_rejected.2.1 Nat Nat collabOK
     (PushImage.init (some "r") none none) rfl none none,
   claim10_empty_string_rejected.2.2.1 Nat Nat collabOK
     (RemoveImage.init (some "i") none none) rfl none none,
   claim10_empty_string_rejected.2.2.2.1 Nat Nat collabOK
     (TagImage.init (some "i") (some "r") none none none) rfl none none none none,
   claim10_empty_string_rejected.2.2.2.2 Nat Nat collabOK
     (TagImage.init (some "i") (some "r") none none none) rfl
     (some "i2") none none none⟩

/-- C1: for every operation variant and every field, the effective value
passed to the delegated client call (and the url the handle is constructed
against) is the per-field resolution of the call-time argument against the
constructor-time attribute: the call-time value unless it is the unset
sentinel (`none`), in which case the constructor-time value.  The first five
conjuncts say every delegated call and every constructed handle of any
invocation carries exactly the per-field resolved values — each field's
effective value depends only on that field's pair, so overriding one field
cannot affect another.  The last five say that when validation passes and
the handle is obtained, exactly that one delegated call is issued. -/
theorem claim1_per_field_merge :
    (∀ (ι ρ : Type) (c : DockerCollab ι ρ) (t : ListImages)
       (rn : Option String) (al : Option Bool) (url : Option String),
       (((ListImages.run c t rn al url).1.2).calls.all
          (fun k => k == ClientCall.images (resolveField rn t.repository_name)
                      (resolveFieldD al t.all_layers))
        && ((ListImages.run c t rn al url).1.2).clients.all
          (fun u => u == resolveFieldD url t.docker_server_url)) = true)
  ∧ (∀ (ι ρ : Type) (c : DockerCollab ι ρ) (t : PullImage)
       (r tg url : Option String),
       (((PullImage.run c t r tg url).1.2).calls.all
          (fun k => k == ClientCall.pull (resolveField r t.repository)
                      (resolveField tg t.tag))
        && ((PullImage.run c t r tg url).1.2).clients.all
          (fun u => u == resolveFieldD url t.docker_server_url)) = true)
  ∧ (∀ (ι ρ : Type) (c : DockerCollab ι ρ) (t : PushImage)
       (r tg url : Option String),
       (((PushImage.run c t r tg url).1.2).calls.all
          (fun k => k == ClientCall.push (resolveField r t.repository)
                      (resolveField tg t.tag))
        && ((PushImage.run c t r tg url).1.2).clients.all
          (fun u => u == resolveFieldD url t.docker_server_url)) = true)
  ∧ (∀ (ι ρ : Type) (c : DockerCollab ι ρ) (t : RemoveImage)
       (im : Option String) (f : Option Bool) (url : Option String),
       (((RemoveImage.run c t im f url).1.2).calls.all
          (fun k => k == ClientCall.remove (resolveField im t.image)
                      (resolveFieldD f t.force))
        && ((RemoveImage.run c t im f url).1.2).clients.all
          (fun u => u == resolveFieldD url t.docker_server_url)) = true)
  ∧ (∀ (ι ρ : Type) (c : DockerCollab ι ρ) (t : TagImage)
       (im rep tg : Option String) (f : Option Bool) (url : Option String),
       (((TagImage.run c t im rep tg f url).1.2).calls.all
          (fun k => k == ClientCall.tag (resolveField im t.image)
                      (resolveField rep t.repository) (resolveField tg t.tag)
                      (resolveFieldD f t.force))
        && ((TagImage.run c t im rep tg f url).1.2).clients.all
          (fun u => u == resolveFieldD url t.docker_server_url)) = true)
  ∧ (∀ (ι ρ : Type) (c : DockerCollab ι ρ) (t : ListImages)
       (rn : Option String) (al : Option Bool) (url : Option String),
       c.apiClient (resolveFieldD url t.docker_server_url) = Except.ok () →
       ((ListImages.run c t rn al url).1.2).calls =
         [ClientCall.images (resolveField rn t.repository_name)
            (resolveFieldD al t.all_layers)])
  ∧ (∀ (ι ρ : Type) (c : DockerCollab ι ρ) (t : PullImage)
       (r tg url : Option String),
       pyTruthyStr (resolveField r t.repository) = true →
       c.apiClient (resolveFieldD url t.docker_server_url) = Except.ok () →
       ((PullImage.run c t r tg url).1.2).calls =
         [ClientCall.pull (resolveField r t.repository) (resolveField tg t.tag)])
  ∧ (∀ (ι ρ : Type) (c : DockerCollab ι ρ) (t : PushImage)
       (r tg url : Option String),
       pyTruthyStr (resolveField r t.repository) = true →
       c.apiClient (resolveFieldD url t.docker_server_url) = Except.ok () →
       ((PushImage.run c t r tg url).1.2).calls =
         [ClientCall.push (resolveField r t.repository) (resolveField tg t.tag)])
  ∧ (∀ (ι ρ : Type) (c : DockerCollab ι ρ) (t : RemoveImage)
       (im : Option String) (f : Option Bool) (url : Option String),
       pyTruthyStr (resolveField im t.image) = true →
       c.apiClient (resolveFieldD url t.docker_server_url) = Except.ok () →
       ((RemoveImage.run c t im f url).1.2).calls =
         [ClientCall.remove (resolveField im t.image) (resolveFieldD f t.force)])
  ∧ (∀ (ι ρ : Type) (c : DockerCollab ι ρ) (t : TagImage)
       (im rep tg : Option String) (f : Option Bool) (url : Option String),
       pyTruthyStr (resolveField im t.image) = true →
       pyTruthyStr (resolveField rep t.repository) = true →
       c.apiClient (resolveFieldD url t.docker_server_url) = Except.ok () →
       ((TagImage.run c t im rep tg f url).1.2).calls =
         [ClientCall.tag (resolveField im t.image) (resolveField rep t.repository)
            (resolveField tg t.tag) (resolveFieldD f t.force)]) := by
  refine ⟨?_, ?_, ?_, ?_, ?_, ?_, ?_, ?_, ?_, ?_⟩
  case' refine_1 => intro ι ρ c t rn al url
  case' refine_2 => intro ι ρ c t r tg url
  case' refine_3 => intro ι ρ c t r tg url
  case' refine_4 => intro ι ρ c t im f url
  case' refine_5 => intro ι ρ c t im rep tg f url
  case refine_1 | refine_2 | refine_3 | refine_4 | refine_5 =>
    simp only [ListImages.run, PullImage.run, PushImage.run, RemoveImage.run,
      TagImage.run]
    (repeat' split) <;> simp [Trace.empty]
  case' refine_6 => intro ι ρ c t rn al url hA
  case' refine_7 => intro ι ρ c t r tg url h hA
  case' refine_8 => intro ι ρ c t r tg url h hA
  case' refine_9 => intro ι ρ c t im f url h hA
  case' refine_10 => intro ι ρ c t im rep tg f url h h' hA
  case refine_6 =>
    cases hX : c.images (resolveField rn t.repository_name)
        (resolveFieldD al t.all_layers) <;>
      simp [ListImages.run, hA, hX]
  case refine_7 =>
    cases hX : c.pull (resolveField r t.repository) (resolveField tg t.tag) <;>
      simp [PullImage.run, h, hA, hX]
  case refine_8 =>
    cases hX : c.push (resolveField r t.repository) (resolveField tg t.tag) <;>
      simp [PushImage.run, h, hA, hX]
  case refine_9 =>
    cases hX : c.remove (resolveField im t.image) (resolveFieldD f t.force) <;>
      simp [RemoveImage.run, h, hA, hX]
  case refine_10 =>
    cases hX : c.tag (resolveField im t.image) (resolveField rep t.repository)
        (resolveField tg t.tag) (resolveFieldD f t.force) <;>
      simp [TagImage.run, h, h', hA, hX]

/-- C1 witness: concrete instances of the hypothesis-bearing conjuncts, with
constructor values overridden field by field at call time. -/
theorem claim1_per_field_merge_witness :
    ((ListImages.run collabOK (ListImages.init (some "a") none none)
        (some "b") (some true) none).1.2).calls =
      [ClientCall.images (some "b") true]
  ∧ ((PullImage.run collabOK (PullImage.init (some "r") (some "t0") none)
        (some "r2") none none).1.2).calls =
      [ClientCall.pull (some "r2") (some "t0")]
  ∧ ((PushImage.run collabOK (PushImage.init (some "r") (some "t0") none)
        none (some "t1") none).1.2).calls =
      [ClientCall.push (some "r") (some "t1")]
  ∧ ((RemoveImage.run collabOK (RemoveImage.init (some "i") (some false) none)
        none (some true) none).1.2).calls =
      [ClientCall.remove (some "i") true]
  ∧ ((TagImage.run collabOK (TagImage.init (some "i") (some "r") none none none)
        (some "i2") none (some "v1") none none).1.2).calls =
      [ClientCall.tag (some "i2") (some "r") (some "v1") false] :=
  ⟨claim1_per_field_merge.2.2.2.2.2.1 Nat Nat collabOK
     (ListImages.init (some "a") none none) (some "b") (some true) none rfl,
   claim1_per_field_merge.2.2.2.2.2.2.1 Nat Nat collabOK
     (PullImage.init (some "r") (some "t0") none) (some "r2") none none rfl rfl,
   claim1_per_field_merge.2.2.2.2.2.2.2.1 Nat Nat collabOK
     (PushImage.init (some "r") (some "t0") none) none (some "t1") none rfl rfl,
   claim1_per_field_merge.2.2.2.2.2.2.2.2.1 Nat Nat collabOK
     (RemoveImage.init (some "i") (some false) none) none (some true) none rfl rfl,
   claim1_per_field_merge.2.2.2.2.2.2.2.2.2 Nat Nat collabOK
     (TagImage.init (some "i") (some "r") none none none)
     (some "i2") none (some "v1") none none rfl rfl rfl⟩

/-- C4: when `docker_server_url` is not specified at construction time
(constructor argument `none`) nor at call time (call argument `none`), every
client handle of the invocation is constructed against
`unix:///var/run/docker.sock` (first five conjuncts, covering every
invocation including validation failures, which construct no handle), and as
soon as validation passes exactly one handle is constructed against that
url (last five conjuncts). -/
theorem claim4_default_daemon_url :
    (∀ (ι ρ : Type) (c : DockerCollab ι ρ)
       (crn : Option String) (cal : Option Bool)
       (rn : Option String) (al : Option Bool),
       (((ListImages.run c (ListImages.init crn cal none) rn al none).1.2).clients.all
          (fun u => u == defaultServerURL)) = true)
  ∧ (∀ (ι ρ : Type) (c : DockerCollab ι ρ) (cr ctg : Option String)
       (r tg : Option String),
       (((PullImage.run c (PullImage.init cr ctg none) r tg none).1.2).clients.all
          (fun u => u == defaultServerURL)) = true)
  ∧ (∀ (ι ρ : Type) (c : DockerCollab ι ρ) (cr ctg : Option String)
       (r tg : Option String),
       (((PushImage.run c (PushImage.init cr ctg none) r tg none).1.2).clients.all
          (fun u => u == defaultServerURL)) = true)
  ∧ (∀ (ι ρ : Type) (c : DockerCollab ι ρ) (cim : Option String)
       (cf : Option Bool) (im : Option String) (f : Option Bool),
       (((RemoveImage.run c (RemoveImage.init cim cf none) im f none).1.2).clients.all
          (fun u => u == defaultServerURL)) = true)
  ∧ (∀ (ι ρ : Type) (c : DockerCollab ι ρ) (cim crep ctg : Option String)
       (cf : Option Bool) (im rep tg : Option String) (f : Option Bool),
       (((TagImage.run c (TagImage.init cim crep ctg cf none)
            im rep tg f none).1.2).clients.all
          (fun u => u == defaultServerURL)) = true)
  ∧ (∀ (ι ρ : Type) (c : DockerCollab ι ρ)
       (crn : Option String) (cal : Option Bool)
       (rn : Option String) (al : Option Bool),
       ((ListImages.run c (ListImages.init crn cal none) rn al none).1.2).clients =
         [defaultServerURL])
  ∧ (∀ (ι ρ : Type) (c : DockerCollab ι ρ) (cr ctg : Option String)
       (r tg : Option String),
       pyTruthyStr (resolveField r cr) = true →
       ((PullImage.run c (PullImage.init cr ctg none) r tg none).1.2).clients =
         [defaultServerURL])
  ∧ (∀ (ι ρ : Type) (c : DockerCollab ι ρ) (cr ctg : Option String)
       (r tg : Option String),
       pyTruthyStr (resolveField r cr) = true →
       ((PushImage.run c (PushImage.init cr ctg none) r tg none).1.2).clients =
         [defaultServerURL])
  ∧ (∀ (ι ρ : Type) (c : DockerCollab ι ρ) (cim : Option String)
       (cf : Option Bool) (im : Option String) (f : Option Bool),
       pyTruthyStr (resolveField im cim) = true →
       ((RemoveImage.run c (RemoveImage.init cim cf none) im f none).1.2).clients =
         [defaultServerURL])
  ∧ (∀ (ι ρ : Type) (c : DockerCollab ι ρ) (cim crep ctg : Option String)
       (cf : Option Bool) (im rep tg : Option String) (f : Option Bool),
       pyTruthyStr (resolveField im cim) = true →
       pyTruthyStr (resolveField rep crep) = true →
       ((TagImage.run c (TagImage.init cim crep ctg cf none)
           im rep tg f none).1.2).clients = [defaultServerURL]) := by
  refine ⟨?_, ?_, ?_, ?_, ?_, ?_, ?_, ?_, ?_, ?_⟩ <;> intros <;>
    simp only [ListImages.run, PullImage.run, PushImage.run, RemoveImage.run,
      TagImage.run, ListImages.init, PullImage.init, PushImage.init,
      RemoveImage.init, TagImage.init] <;>
    (repeat' split) <;>
    simp_all [Trace.empty, resolveField, resolveFieldD, pyTruthyStr]

/-- C4 witness: concrete instances of the hypothesis-bearing conjuncts. -/
theorem claim4_default_daemon_url_witness :
    ((PullImage.run collabOK (PullImage.init (some "r") none none)
        none none none).1.2).clients = [defaultServerURL]
  ∧ ((PushImage.run collabOK (PushImage.init (some "r") none none)
        none none none).1.2).clients = [defaultServerURL]
  ∧ ((RemoveImage.run collabOK (RemoveImage.init (some "i") none none)
        none none none).1.2).clients = [defaultServerURL]
  ∧ ((TagImage.run collabOK (TagImage.init (some "i") (some "r") none none none)
        none none none none none).1.2).clients = [defaultServerURL] :=
  ⟨claim4_default_daemon_url.2.2.2.2.2.2.1 Nat Nat collabOK
     (some "r") none none none rfl,
   claim4_default_daemon_url.2.2.2.2.2.2.2.1 Nat Nat collabOK
     (some "r") none none none rfl,
   claim4_default_daemon_url.2.2.2.2.2.2.2.2.1 Nat Nat collabOK
     (some "i") none none none rfl,
   claim4_default_daemon_url.2.2.2.2.2.2.2.2.2 Nat Nat collabOK
     (some "i") (some "r") none none none none none none rfl rfl⟩

/-- C5: `ListImages.run` with no filter arguments at construction time
(`repository_name` unset, `all_layers` left `False`) and none at call time
delegates to the collaborator's `images` operation with name filter `none`
and all-layers `false`, and returns whatever list the collaborator yields,
unchanged. -/
theorem claim5_list_pass_through :
    ∀ (ι ρ : Type) (c : DockerCollab ι ρ) (t : ListImages)
      (url : Option String) (xs : List ι),
      t.repository_name = none → t.all_layers = false →
      c.apiClient (resolveFieldD url t.docker_server_url) = Except.ok () →
      c.images none false = Except.ok xs →
      ListImages.run c t none none url =
        ((Except.ok xs,
          ⟨[resolveFieldD url t.docker_server_url],
           [ClientCall.images none false]⟩), t) := by
  intro ι ρ c t url xs h1 h2 hA hX
  cases url <;> simp_all [ListImages.run, resolveField, resolveFieldD]

/-- C5 witness: a stub collaborator yielding a fixed two-record list, passed
through unchanged. -/
theorem claim5_list_pass_through_witness :
    ListImages.run collabOK (ListImages.init none none none) none none none =
      ((Except.ok [1, 2],
        ⟨[defaultServerURL], [ClientCall.images none false]⟩),
       ListImages.init none none none) :=
  claim5_list_pass_through Nat Nat collabOK (ListImages.init none none none)
    none [1, 2] rfl rfl rfl rfl

/-- C6: for every invocation of `TagImage.run` whose validation passes and
whose delegated `tag` call succeeds, the value returned to the caller is
exactly the boolean the collaborator's `tag` operation returned. -/
theorem claim6_tag_returns_collab_bool :
    ∀ (ι ρ : Type) (c : DockerCollab ι ρ) (t : TagImage)
      (im rep tg : Option String) (f : Option Bool) (url : Option String)
      (b : Bool),
      pyTruthyStr (resolveField im t.image) = true →
      pyTruthyStr (resolveField rep t.repository) = true →
      c.apiClient (resolveFieldD url t.docker_server_url) = Except.ok () →
      c.tag (resolveField im t.image) (resolveField rep t.repository)
        (resolveField tg t.tag) (resolveFieldD f t.force) = Except.ok b →
      (TagImage.run c t im rep tg f url).1.1 = Except.ok b := by
  intro ι ρ c t im rep tg f url b h1 h2 hA hX
  simp [TagImage.run, h1, h2, hA, hX]

/-- C6 witness: the collaborator returns `true` and the caller receives
exactly `true`. -/
theorem claim6_tag_returns_collab_bool_witness :
    (TagImage.run collabOK (TagImage.init (some "i") (some "r") none none none)
       none none none none none).1.1 = Except.ok true :=
  claim6_tag_returns_collab_bool Nat Nat collabOK
    (TagImage.init (some "i") (some "r") none none none)
    none none none none none true rfl rfl rfl rfl

/-- C7: for every invocation of `RemoveImage.run` whose validation passes
and whose delegated `remove` call succeeds, the operation returns no value
(`None`, embedded as `Unit`) regardless of the value `r` the collaborator's
`remove` operation returned. -/
theorem claim7_remove_returns_none :
    ∀ (ι ρ : Type) (c : DockerCollab ι ρ) (t : RemoveImage)
      (im : Option String) (f : Option Bool) (url : Option String) (r : ρ),
      pyTruthyStr (resolveField im t.image) = true →
      c.apiClient (resolveFieldD url t.docker_server_url) = Except.ok () →
      c.remove (resolveField im t.image) (resolveFieldD f t.force) =
        Except.ok r →
      (RemoveImage.run c t im f url).1.1 = Except.ok () := by
  intro ι ρ c t im f url r h hA hX
  simp [RemoveImage.run, h, hA, hX]

/-- C7 witness: the collaborator's `remove` returns `7`; the caller still
receives `None`. -/
theorem claim7_remove_returns_none_witness :
    (RemoveImage.run collabOK (RemoveImage.init (some "i") none none)
       none none none).1.1 = Except.ok () :=
  claim7_remove_returns_none Nat Nat collabOK
    (RemoveImage.init (some "i") none none) none none none 7 rfl rfl rfl

/-- C8: for all five operations, an error of the collaborator — during
handle construction (conjuncts one to five: result is the collaborator's
error with its payload unchanged, and no delegated call was issued) or
during the delegated call (conjuncts six to ten: result is the
collaborator's error unchanged) — propagates to the caller without being
suppressed, retried or turned into a `ValueError`; and every invocation
issues at most one delegated call (last five conjuncts). -/
theorem claim8_error_propagation_at_most_once :
    (∀ (ι ρ : Type) (c : DockerCollab ι ρ) (t : ListImages)
       (rn : Option String) (al : Option Bool) (url : Option String) (e : String),
       c.apiClient (resolveFieldD url t.docker_server_url) = Except.error e →
       (ListImages.run c t rn al url).1.1 = Except.error (PyErr.collabError e) ∧
       ((ListImages.run c t rn al url).1.2).calls = [])
  ∧ (∀ (ι ρ : Type) (c : DockerCollab ι ρ) (t : PullImage)
       (r tg url : Option String) (e : String),
       pyTruthyStr (resolveField r t.repository) = true →
       c.apiClient (resolveFieldD url t.docker_server_url) = Except.error e →
       (PullImage.run c t r tg url).1.1 = Except.error (PyErr.collabError e) ∧
       ((PullImage.run c t r tg url).1.2).calls = [])
  ∧ (∀ (ι ρ : Type) (c : DockerCollab ι ρ) (t : PushImage)
       (r tg url : Option String) (e : String),
       pyTruthyStr (resolveField r t.repository) = true →
       c.apiClient (resolveFieldD url t.docker_server_url) = Except.error e →
       (PushImage.run c t r tg url).1.1 = Except.error (PyErr.collabError e) ∧
       ((PushImage.run c t r tg url).1.2).calls = [])
  ∧ (∀ (ι ρ : Type) (c : DockerCollab ι ρ) (t : RemoveImage)
       (im : Option String) (f : Option Bool) (url : Option String) (e : String),
       pyTruthyStr (resolveField im t.image) = true →
       c.apiClient (resolveFieldD url t.docker_server_url) = Except.error e →
       (RemoveImage.run c t im f url).1.1 = Except.error (PyErr.collabError e) ∧
       ((RemoveImage.run c t im f url).1.2).calls = [])
  ∧ (∀ (ι ρ : Type) (c : DockerCollab ι ρ) (t : TagImage)
       (im rep tg : Option String) (f : Option Bool) (url : Option String)
       (e : String),
       pyTruthyStr (resolveField im t.image) = true →
       pyTruthyStr (resolveField rep t.repository) = true →
       c.apiClient (resolveFieldD url t.docker_server_url) = Except.error e →
       (TagImage.run c t im rep tg f url).1.1 =
         Except.error (PyErr.collabError e) ∧
       ((TagImage.run c t im rep tg f url).1.2).calls = [])
  ∧ (∀ (ι ρ : Type) (c : DockerCollab ι ρ) (t : ListImages)
       (rn : Option String) (al : Option Bool) (url : Option String) (e : String),
       c.apiClient (resolveFieldD url t.docker_server_url) = Except.ok () →
       c.images (resolveField rn t.repository_name) (resolveFieldD al t.all_layers) =
         Except.error e →
       (ListImages.run c t rn al url).1.1 = Except.error (PyErr.collabError e))
  ∧ (∀ (ι ρ : Type) (c : DockerCollab ι ρ) (t : PullImage)
       (r tg url : Option String) (e : String),
       pyTruthyStr (resolveField r t.repository) = true →
       c.apiClient (resolveFieldD url t.docker_server_url) = Except.ok () →
       c.pull (resolveField r t.repository) (resolveField tg t.tag) =
         Except.error e →
       (PullImage.run c t r tg url).1.1 = Except.error (PyErr.collabError e))
  ∧ (∀ (ι ρ : Type) (c : DockerCollab ι ρ) (t : PushImage)
       (r tg url : Option String) (e : String),
       pyTruthyStr (resolveField r t.repository) = true →
       c.apiClient (resolveFieldD url t.docker_server_url) = Except.ok () →
       c.push (resolveField r t.repository) (resolveField tg t.tag) =
         Except.error e →
       (PushImage.run c t r tg url).1.1 = Except.error (PyErr.collabError e))
  ∧ (∀ (ι ρ : Type) (c : DockerCollab ι ρ) (t : RemoveImage)
       (im : Option String) (f : Option Bool) (url : Option String) (e : String),
       pyTruthyStr (resolveField im t.image) = true →
       c.apiClient (resolveFieldD url t.docker_server_url) = Except.ok () →
       c.remove (resolveField im t.image) (resolveFieldD f t.force) =
         Except.error e →
       (RemoveImage.run c t im f url).1.1 = Except.error (PyErr.collabError e))
  ∧ (∀ (ι ρ : Type) (c : DockerCollab ι ρ) (t : TagImage)
       (im rep tg : Option String) (f : Option Bool) (url : Option String)
       (e : String),
       pyTruthyStr (resolveField im t.image) = true →
       pyTruthyStr (resolveField rep t.repository) = true →
       c.apiClient (resolveFieldD url t.docker_server_url) = Except.ok () →
       c.tag (resolveField im t.image) (resolveField rep t.repository)
         (resolveField tg t.tag) (resolveFieldD f t.force) = Except.error e →
       (TagImage.run c t im rep tg f url).1.1 =
         Except.error (PyErr.collabError e))
  ∧ (∀ (ι ρ : Type) (c : DockerCollab ι ρ) (t : ListImages)
       (rn : Option String) (al : Option Bool) (url : Option String),
       ((ListImages.run c t rn al url).1.2).calls.length ≤ 1)
  ∧ (∀ (ι ρ : Type) (c : DockerCollab ι ρ) (t : PullImage)
       (r tg url : Option String),
       ((PullImage.run c t r tg url).1.2).calls.length ≤ 1)
  ∧ (∀ (ι ρ : Type) (c : DockerCollab ι ρ) (t : PushImage)
       (r tg url : Option String),
       ((PushImage.run c t r tg url).1.2).calls.length ≤ 1)
  ∧ (∀ (ι ρ : Type) (c : DockerCollab ι ρ) (t : RemoveImage)
       (im : Option String) (f : Option Bool) (url : Option String),
       ((RemoveImage.run c t im f url).1.2).calls.length ≤ 1)
  ∧ (∀ (ι ρ : Type) (c : DockerCollab ι ρ) (t : TagImage)
       (im rep tg : Option String) (f : Option Bool) (url : Option String),
       ((TagImage.run c t im rep tg f url).1.2).calls.length ≤ 1) := by
  refine ⟨?_, ?_, ?_, ?_, ?_, ?_, ?_, ?_, ?_, ?_, ?_, ?_, ?_, ?_, ?_⟩ <;> intros
  case refine_1 =>
    simp_all [ListImages.run]
  case refine_2 =>
    simp_all [PullImage.run]
  case refine_3 =>
    simp_all [PushImage.run]
  case refine_4 =>
    simp_all [RemoveImage.run]
  case refine_5 =>
    simp_all [TagImage.run]
  case refine_6 =>
    simp_all [ListImages.run]
  case refine_7 =>
    simp_all [PullImage.run]
  case refine_8 =>
    simp_all [PushImage.run]
  case refine_9 =>
    simp_all [RemoveImage.run]
  case refine_10 =>
    simp_all [TagImage.run]
  case refine_11 | refine_12 | refine_13 | refine_14 | refine_15 =>
    simp only [ListImages.run, PullImage.run, PushImage.run, RemoveImage.run,
      TagImage.run]
    (repeat' split) <;> simp [Trace.empty]

/-- C8 witness: a collaborator whose handle construction fails, and one
whose delegated operations fail, each propagate their error payload
unchanged through every operation. -/
theorem claim8_error_propagation_at_most_once_witness :
    ((ListImages.run collabCtorFail (ListImages.init none none none)
        none none none).1.1 =
          Except.error (PyErr.collabError "daemon unreachable") ∧
      ((ListImages.run collabCtorFail (ListImages.init none none none)
        none none none).1.2).calls = [])
  ∧ ((PullImage.run collabCtorFail (PullImage.init (some "r") none none)
        none none none).1.1 =
          Except.error (PyErr.collabError "daemon unreachable") ∧
      ((PullImage.run collabCtorFail (PullImage.init (some "r") none none)
        none none none).1.2).calls = [])
  ∧ ((PushImage.run collabCtorFail (PushImage.init (some "r") none none)
        none none none).1.1 =
          Except.error (PyErr.collabError "daemon unreachable") ∧
      ((PushImage.run collabCtorFail (PushImage.init (some "r") none none)
        none none none).1.2).calls = [])
  ∧ ((RemoveImage.run collabCtorFail (RemoveImage.init (some "i") none none)
        none none none).1.1 =
          Except.error (PyErr.collabError "daemon unreachable") ∧
      ((RemoveImage.run collabCtorFail (RemoveImage.init (some "i") none none)
        none none none).1.2).calls = [])
  ∧ ((TagImage.run collabCtorFail
        (TagImage.init (some "i") (some "r") none none none)
        none none none none none).1.1 =
          Except.error (PyErr.collabError "daemon unreachable") ∧
      ((TagImage.run collabCtorFail
        (TagImage.init (some "i") (some "r") none none none)
        none none none none none).1.2).calls = [])
  ∧ (ListImages.run collabOpFail (ListImages.init none none none)
       none none none).1.1 = Except.error (PyErr.collabError "daemon error")
  ∧ (PullImage.run collabOpFail (PullImage.init (some "r") none none)
       none none none).1.1 = Except.error (PyErr.collabError "not found")
  ∧ (PushImage.run collabOpFail (PushImage.init (some "r") none none)
       none none none).1.1 =
        Except.error (PyErr.collabError "permission denied")
  ∧ (RemoveImage.run collabOpFail (RemoveImage.init (some "i") none none)
       none none none).1.1 = Except.error (PyErr.collabError "conflict")
  ∧ (TagImage.run collabOpFail
       (TagImage.init (some "i") (some "r") none none none)
       none none none none none).1.1 =
        Except.error (PyErr.collabError "tag conflict") :=
  ⟨claim8_error_propagation_at_most_once.1 Nat Nat collabCtorFail
     (ListImages.init none none none) none none none "daemon unreachable" rfl,
   claim8_error_propagation_at_most_once.2.1 Nat Nat collabCtorFail
     (PullImage.init (some "r") none none) none none none
     "daemon unreachable" rfl rfl,
   claim8_error_propagation_at_most_once.2.2.1 Nat Nat collabCtorFail
     (PushImage.init (some "r") none none) none none none
     "daemon unreachable" rfl rfl,
   claim8_error_propagation_at_most_once.2.2.2.1 Nat Nat collabCtorFail
     (RemoveImage.init (some "i") none none) none none none
     "daemon unreachable" rfl rfl,
   claim8_error_propagation_at_most_once.2.2.2.2.1 Nat Nat collabCtorFail
     (TagImage.init (some "i") (some "r") none none none)
     none none none none none "daemon unreachable" rfl rfl rfl,
   claim8_error_propagation_at_most_once.2.2.2.2.2.1 Nat Nat collabOpFail
     (ListImages.init none none none) none none none "daemon error" rfl rfl,
   claim8_error_propagation_at_most_once.2.2.2.2.2.2.1 Nat Nat collabOpFail
     (PullImage.init (some "r") none none) none none none "not found" rfl rfl rfl,
   claim8_error_propagation_at_most_once.2.2.2.2.2.2.2.1 Nat Nat collabOpFail
     (PushImage.init (some "r") none none) none none none
     "permission denied" rfl rfl rfl,
   claim8_error_propagation_at_most_once.2.2.2.2.2.2.2.2.1 Nat Nat collabOpFail
     (RemoveImage.init (some "i") none none) none none none "conflict" rfl rfl rfl,
   claim8_error_propagation_at_most_once.2.2.2.2.2.2.2.2.2.1 Nat Nat collabOpFail
     (TagImage.init (some "i") (some "r") none none none)
     none none none none none "tag conflict" rfl rfl rfl rfl⟩

end DockerTasks
